import Mathlib

/-!
Shallow embedding of the favorite-products service (Django/django-ninja
application): the persistence schema (`core/models.py`), the favorites
endpoints (`api/common/endpoints.py`), the user-management endpoints
(`api/management/endpoints.py`), the product-construction helper
(`api/utils.py`) and the catalog sync command
(`core/management/commands/sync_products.py`).

The relational store is modelled as lists of rows.  Auto-increment
primary keys and `auto_now_add` creation timestamps are modelled by a
single monotone counter `nextId`: every inserted row takes the current
counter value as its primary key and as its `date_created` stamp, and
the counter increases.  The audit fields `date_changed` and `active`
are never read by any endpoint and are omitted.  Python `Decimal`
values are modelled as rationals, JSON objects with optional keys as
`Option`-valued fields, and a raised-and-caught exception as an
explicit error branch.
-/

namespace FavApi

/-- External catalog JSON rating object (`data["rating"]`); `none` in a
field models an absent key, matching Python `dict.get`. -/
structure ApiRating where
  rate : Option ℚ
  count : Option ℤ
deriving DecidableEq, Repr

/-- External catalog JSON product payload as consumed by
`create_product_from_api_data` and the sync command: the keys `id`,
`title`, `price`, `description`, `category`, `image` are indexed
directly (a missing key would be a parse failure handled by the
caller), `rating` is accessed with `get` and may be absent. -/
structure ApiProductData where
  id : ℤ
  title : String
  price : ℚ
  description : String
  category : String
  image : String
  rating : Option ApiRating
deriving DecidableEq, Repr

/-- `core.models.User.Role` text choices. -/
inductive Role where
  | admin
  | customer
deriving DecidableEq, Repr

/-- `core.models.User` row: primary key, `name`, unique `email`, the
stored (hashed) `password` credential, and `role`. -/
structure User where
  uid : ℕ
  name : String
  email : String
  password : String
  role : Role
deriving DecidableEq, Repr

/-- `core.models.Product` row (an `AuditedModel`): unique `api_id` plus
the catalog fields and the two nullable rating columns;
`date_created` is the `auto_now_add` stamp used by `get_favorites`. -/
structure Product where
  pid : ℕ
  api_id : ℤ
  title : String
  price : ℚ
  description : String
  category : String
  image : String
  rating_rate : Option ℚ
  rating_count : Option ℤ
  date_created : ℕ
deriving DecidableEq, Repr

/-- `core.models.FavoriteProducts` row: foreign keys to `User` and
`Product` (both `on_delete=CASCADE`), `unique_together (user, product)`,
with its own `date_created` audit stamp. -/
structure Favorite where
  fid : ℕ
  userId : ℕ
  productId : ℕ
  date_created : ℕ
deriving DecidableEq, Repr

/-- Modelled from the spec: `api/models.py` (the `AuthToken` model) is
not part of the sources; per the spec an `AuthToken` is an opaque key
in a many-to-one relation with `User`, "created alongside user
creation, deleted when user is deleted". -/
structure AuthToken where
  key : String
  userId : ℕ
deriving DecidableEq, Repr

/-- The relational store: one list of rows per table, plus the monotone
counter supplying fresh primary keys and creation stamps. -/
structure Store where
  users : List User
  products : List Product
  favorites : List Favorite
  tokens : List AuthToken
  nextId : ℕ
deriving DecidableEq, Repr

/-- `rating_rate` value computed by `create_product_from_api_data`:
`Decimal(str(data["rating"]["rate"])) if data.get("rating") and
data["rating"].get("rate") else None`.  A rate of `0` is falsy in
Python, so it yields `None`. -/
def ratingRateFromData (data : ApiProductData) : Option ℚ :=
  match data.rating with
  | none => none
  | some r =>
    match r.rate with
    | none => none
    | some v => if v = 0 then none else some v

/-- `rating_count` value computed by `create_product_from_api_data`:
`data["rating"]["count"] if data.get("rating") and
data["rating"].get("count") else None`.  A count of `0` is falsy in
Python, so it yields `None`. -/
def ratingCountFromData (data : ApiProductData) : Option ℤ :=
  match data.rating with
  | none => none
  | some r =>
    match r.count with
    | none => none
    | some v => if v = 0 then none else some v

/-- `api.utils.create_product_from_api_data`: build a `Product` from
the external JSON payload and save it. -/
def create_product_from_api_data (s : Store) (data : ApiProductData) :
    Product × Store :=
  let p : Product :=
    { pid := s.nextId
      api_id := data.id
      title := data.title
      price := data.price
      description := data.description
      category := data.category
      image := data.image
      rating_rate := ratingRateFromData data
      rating_count := ratingCountFromData data
      date_created := s.nextId }
  (p, { s with products := s.products ++ [p], nextId := s.nextId + 1 })

/-- Whether a `FavoriteProducts` row for the given user and local
product primary key exists (the `unique_together` constraint that makes
`FavoriteProducts.objects.create` raise `IntegrityError`). -/
def favoriteExists (s : Store) (uid pid : ℕ) : Bool :=
  s.favorites.any fun f => f.userId == uid && f.productId == pid

/-- `FavoriteProducts.objects.create(user=..., product=...)` on the
success path: insert the link row. -/
def createFavorite (s : Store) (uid pid : ℕ) : Store :=
  { s with
      favorites := s.favorites ++ [⟨s.nextId, uid, pid, s.nextId⟩]
      nextId := s.nextId + 1 }

/-- Response of `add_favorite`: `201` with the product, or `400` with a
fixed message in a `{"error": msg}` body. -/
inductive AddFavResponse where
  | created (p : Product)
  | badRequest (msg : String)
deriving DecidableEq, Repr

/-- `api.common.endpoints.add_favorite`.  The external call
`client.get_product(p_id)` together with the parse performed by
`create_product_from_api_data` is modelled by the `fetch` argument:
`none` stands for a raised `requests.RequestException`, `KeyError` or
`ValueError` (all caught by the endpoint), `some data` for a payload
that parses. -/
def add_favorite (s : Store) (uid : ℕ) (p_id : ℤ)
    (fetch : Option ApiProductData) : AddFavResponse × Store :=
  match s.products.find? (fun p => p.api_id == p_id) with
  | some product =>
    if favoriteExists s uid product.pid then
      (.badRequest "The product selected is already on user\x27s favorites.", s)
    else
      (.created product, createFavorite s uid product.pid)
  | none =>
    match fetch with
    | none =>
      (.badRequest "Product not found or could not be fetched from the API.", s)
    | some data =>
      let pr := create_product_from_api_data s data
      if favoriteExists pr.2 uid pr.1.pid then
        (.badRequest "The product selected is already on user\x27s favorites.", pr.2)
      else
        (.created pr.1, createFavorite pr.2 uid pr.1.pid)

/-- Response of `delete_favorite`: `204` with empty body, or `400` with
a fixed bare-string message. -/
inductive DelFavResponse where
  | noContent
  | badRequest (msg : String)
deriving DecidableEq, Repr

/-- The row predicate of
`FavoriteProducts.objects.filter(user=request.auth, product__api_id=p_id)`:
a link of the current user whose product has the given catalog id. -/
def favFor (s : Store) (uid : ℕ) (p_id : ℤ) (f : Favorite) : Bool :=
  f.userId == uid &&
    s.products.any fun q => q.pid == f.productId && q.api_id == p_id

/-- `api.common.endpoints.delete_favorite`. -/
def delete_favorite (s : Store) (uid : ℕ) (p_id : ℤ) :
    DelFavResponse × Store :=
  match s.favorites.find? (favFor s uid p_id) with
  | none => (.badRequest "This product is not on your favorites.", s)
  | some f =>
    (.noContent,
     { s with favorites := s.favorites.eraseP fun g => g.fid == f.fid })

/-- The `order_by("date_created")` comparison on products. -/
def byDateCreated (a b : Product) : Prop :=
  a.date_created ≤ b.date_created

instance : DecidableRel byDateCreated :=
  fun a b => Nat.decLe a.date_created b.date_created

instance : IsTotal Product byDateCreated :=
  ⟨fun a b => Nat.le_total a.date_created b.date_created⟩

instance : IsTrans Product byDateCreated :=
  ⟨fun _ _ _ hab hbc => Nat.le_trans hab hbc⟩

/-- The queryset of `get_favorites` before pagination:
`Product.objects.filter(favoriteproducts__user=request.auth)
.order_by("date_created")`. -/
def get_favorites (s : Store) (uid : ℕ) : List Product :=
  List.insertionSort byDateCreated
    (s.products.filter fun p => favoriteExists s uid p.pid)

/-- `ninja.pagination.PageNumberPagination` with `page_size=20`: the
1-indexed `page` query parameter selects the slice
`queryset[(page-1)*20 : page*20]`, and the envelope carries the items
with the total count. -/
def paginate20 (l : List Product) (page : ℕ) : List Product × ℕ :=
  ((l.drop ((page - 1) * 20)).take 20, l.length)

/-- The full paginated `GET /common/favorites` response. -/
def get_favorites_page (s : Store) (uid : ℕ) (page : ℕ) :
    List Product × ℕ :=
  paginate20 (get_favorites s uid) page

/-- Responses of the user-management endpoints used here: `200` with
the user, `400` with a fixed message, `204` with empty body. -/
inductive UserResponse where
  | ok (u : User)
  | badRequest (msg : String)
  | noContent
deriving DecidableEq, Repr

/-- `UserSchemaUpdate` payload with `fields_optional` — a `none` field
was not present in the request body (`payload.dict(exclude_unset=True)`
drops it). -/
structure UserSchemaUpdate where
  name : Option String
  email : Option String
  password : Option String
deriving DecidableEq, Repr

/-- The field application loop of `update_user`: `setattr` for each
field present in the payload (password popped out beforehand), then
`user.set_password(password)` when the password is truthy — the empty
string is falsy in Python and is skipped.  `hash` stands for Django\x27s
password hasher. -/
def applyUpdate (hash : String → String) (user : User)
    (payload : UserSchemaUpdate) : User :=
  let u1 := match payload.name with
    | some n => { user with name := n }
    | none => user
  let u2 := match payload.email with
    | some e => { u1 with email := e }
    | none => u1
  match payload.password with
  | some p => if p = "" then u2 else { u2 with password := hash p }
  | none => u2

/-- `api.management.endpoints.update_user`.  Note the email check is
`User.objects.filter(email=payload.email).first()` over ALL users; when
the payload carries no email, `filter(email=None)` matches no row
(the email column is non-null). -/
def update_user (hash : String → String) (s : Store) (user_id : ℕ)
    (payload : UserSchemaUpdate) : UserResponse × Store :=
  match s.users.find? (fun u => u.uid == user_id) with
  | none => (.badRequest "No user was found with the provided ID.", s)
  | some user =>
    let emailTaken := match payload.email with
      | some e => s.users.any fun u => u.email == e
      | none => false
    if emailTaken then
      (.badRequest "The provided email is already in use.", s)
    else
      let user2 := applyUpdate hash user payload
      (.ok user2,
       { s with users := s.users.map fun u =>
           if u.uid == user_id then user2 else u })

/-- `api.management.endpoints.delete_user`: `user.delete()` cascades to
the rows holding a foreign key to the user — `AuthToken` and
`FavoriteProducts` (`on_delete=CASCADE`); `Product` has no foreign key
to `User` and is untouched. -/
def delete_user (s : Store) (user_id : ℕ) : UserResponse × Store :=
  match s.users.find? (fun u => u.uid == user_id) with
  | none => (.badRequest "No user was found with the provided ID.", s)
  | some _ =>
    (.noContent,
     { s with
         users := s.users.filter fun u => u.uid != user_id
         tokens := s.tokens.filter fun t => t.userId != user_id
         favorites := s.favorites.filter fun f => f.userId != user_id })

/-- The `has_changes` test of the sync command: it compares exactly
`title`, `price`, `description`, `category` and `image` — the rating
columns are not compared. -/
def syncHasChanges (p : Product) (d : ApiProductData) : Bool :=
  decide (¬ (p.title = d.title ∧ p.price = d.price ∧
    p.description = d.description ∧ p.category = d.category ∧
    p.image = d.image))

/-- The overwrite performed by the sync command when `has_changes`: the
five compared fields always, and the rating columns only when the
payload carries a truthy `rating` object — in which case
`product_data["rating"]["rate"]` and `["count"]` are indexed directly,
so a rating object missing either key raises an uncaught `KeyError`
(`none` here), aborting the run. -/
def syncOverwrite (p : Product) (d : ApiProductData) : Option Product :=
  let p1 := { p with
    title := d.title, price := d.price, description := d.description,
    category := d.category, image := d.image }
  match d.rating with
  | none => some p1
  | some r =>
    match r.rate, r.count with
    | some rate, some cnt =>
      some { p1 with rating_rate := some rate, rating_count := some cnt }
    | _, _ => none

/-- One iteration of the sync command\x27s loop over the fetched items:
`Product.objects.get(api_id=...)` missing ⇒ skipped (`continue`), no
change ⇒ skipped, change ⇒ overwrite and save.  The `Bool` tells
whether the item was counted as updated. -/
def syncItem (products : List Product) (d : ApiProductData) :
    Option (List Product × Bool) :=
  match products.find? (fun p => p.api_id == d.id) with
  | none => some (products, false)
  | some p =>
    if syncHasChanges p d then
      match syncOverwrite p d with
      | none => none
      | some p2 =>
        some (products.map (fun q => if q.pid == p.pid then p2 else q), true)
    else
      some (products, false)

/-- The whole sync run over the fetched catalog, returning the final
product table with the `updated` and `skipped` counts (`none` = the
run crashed on a malformed rating object). -/
def syncRun (products : List Product) :
    List ApiProductData → Option (List Product × ℕ × ℕ)
  | [] => some (products, 0, 0)
  | d :: ds =>
    match syncItem products d with
    | none => none
    | some (products2, updated) =>
      match syncRun products2 ds with
      | none => none
      | some (ps, u, k) =>
        some (ps, (if updated then u + 1 else u),
                  (if updated then k else k + 1))

/-! ### Concrete fixtures used by counterexamples and witnesses -/

/-- An empty store. -/
def emptyStore : Store := ⟨[], [], [], [], 0⟩

/-- A catalog payload whose rating carries `rate = 0` and `count = 0`. -/
def dZero : ApiProductData :=
  ⟨7, "Shirt", 10, "A shirt", "clothes", "http:img", some ⟨some 0, some 0⟩⟩

/-- A concrete stand-in for Django\x27s password hasher. -/
def hashW (q : String) : String := String.append "pbkdf2$" q

/-- A customer user. -/
def u0 : User := ⟨1, "Ann", "a@x.com", "pbkdf2$old", .customer⟩

/-! ### C10 -/

/-- C10: when a product is created from external API data, a rating
whose `rate` or `count` equals `0`, or a missing rating object, is
stored as `None` in the corresponding column. -/
theorem create_product_zero_rating_stored_null (s : Store)
    (d : ApiProductData) :
    (∀ r, d.rating = some r → r.rate = some 0 →
      (create_product_from_api_data s d).1.rating_rate = none) ∧
    (∀ r, d.rating = some r → r.count = some 0 →
      (create_product_from_api_data s d).1.rating_count = none) ∧
    (d.rating = none →
      (create_product_from_api_data s d).1.rating_rate = none ∧
      (create_product_from_api_data s d).1.rating_count = none) := by
  refine ⟨?_, ?_, ?_⟩ <;> intros <;>
    simp_all [create_product_from_api_data, ratingRateFromData,
      ratingCountFromData]

/-- Witness for C10 on a concrete zero-rating payload. -/
theorem create_product_zero_rating_witness :
    (create_product_from_api_data emptyStore dZero).1.rating_rate = none ∧
    (create_product_from_api_data emptyStore dZero).1.rating_count = none :=
  ⟨(create_product_zero_rating_stored_null emptyStore dZero).1
      ⟨some 0, some 0⟩ rfl rfl,
   (create_product_zero_rating_stored_null emptyStore dZero).2.1
      ⟨some 0, some 0⟩ rfl rfl⟩

/-! ### C5 -/

/-- When every favorite row points at a product row older than the
fresh key `s.nextId`, no favorite can collide with a just-created
product. -/
theorem favoriteExists_fresh (s : Store) (uid : ℕ)
    (hwf : ∀ f ∈ s.favorites, f.productId < s.nextId) :
    favoriteExists s uid s.nextId = false := by
  simp only [favoriteExists, List.any_eq_false]
  intro f hf
  have := hwf f hf
  simp only [Bool.and_eq_true, beq_iff_eq, not_and]
  intro _ h
  omega

/-- Case analysis of `add_favorite`, shared by several results below. -/
theorem add_favorite_cases (s : Store) (uid : ℕ) (p_id : ℤ)
    (fetch : Option ApiProductData) :
    (s.products.find? (fun p => p.api_id == p_id) = none → fetch = none →
      add_favorite s uid p_id fetch =
        (.badRequest "Product not found or could not be fetched from the API.",
         s)) ∧
    (∀ q, s.products.find? (fun p => p.api_id == p_id) = some q →
      favoriteExists s uid q.pid = true →
      add_favorite s uid p_id fetch =
        (.badRequest "The product selected is already on user\x27s favorites.",
         s)) ∧
    (∀ q, s.products.find? (fun p => p.api_id == p_id) = some q →
      favoriteExists s uid q.pid = false →
      add_favorite s uid p_id fetch =
        (.created q,
         { s with
             favorites := s.favorites ++ [⟨s.nextId, uid, q.pid, s.nextId⟩],
             nextId := s.nextId + 1 })) ∧
    (∀ d, s.products.find? (fun p => p.api_id == p_id) = none →
      fetch = some d →
      (∀ f ∈ s.favorites, f.productId < s.nextId) →
      add_favorite s uid p_id fetch =
        (.created (create_product_from_api_data s d).1,
         { s with
             products := s.products ++ [(create_product_from_api_data s d).1],
             favorites := s.favorites ++
               [⟨s.nextId + 1, uid, s.nextId, s.nextId + 1⟩],
             nextId := s.nextId + 2 })) := by
  refine ⟨?_, ?_, ?_, ?_⟩
  · intro hfind hf
    subst hf
    simp [add_favorite, hfind]
  · intro q hfind hfav
    simp [add_favorite, hfind, hfav]
  · intro q hfind hfav
    simp [add_favorite, hfind, hfav, createFavorite]
  · intro d hfind hf hwf
    subst hf
    have hfresh : (s.favorites.any fun f =>
        f.userId == uid && f.productId == s.nextId) = false := by
      simp only [List.any_eq_false]
      intro f hf2
      have := hwf f hf2
      simp only [Bool.and_eq_true, beq_iff_eq, not_and]
      intro _ h
      omega
    simp [add_favorite, hfind, favoriteExists, createFavorite,
      create_product_from_api_data, hfresh]

/-- C5: responses of `add_favorite` — product absent and fetch/parse
failed ⇒ `400` with the fixed fetch message and an unchanged store;
link already present ⇒ `400` with the fixed already-favorited message
and an unchanged store; product present and link absent ⇒ `201` with
the product and exactly the new link row added; product absent and
fetch succeeded ⇒ `201` with the persisted product and the new link
row. -/
theorem add_favorite_responses (s : Store) (uid : ℕ) (p_id : ℤ)
    (fetch : Option ApiProductData) :
    (s.products.find? (fun p => p.api_id == p_id) = none → fetch = none →
      add_favorite s uid p_id fetch =
        (.badRequest "Product not found or could not be fetched from the API.",
         s)) ∧
    (∀ q, s.products.find? (fun p => p.api_id == p_id) = some q →
      favoriteExists s uid q.pid = true →
      add_favorite s uid p_id fetch =
        (.badRequest "The product selected is already on user\x27s favorites.",
         s)) ∧
    (∀ q, s.products.find? (fun p => p.api_id == p_id) = some q →
      favoriteExists s uid q.pid = false →
      add_favorite s uid p_id fetch =
        (.created q,
         { s with
             favorites := s.favorites ++ [⟨s.nextId, uid, q.pid, s.nextId⟩],
             nextId := s.nextId + 1 })) ∧
    (∀ d, s.products.find? (fun p => p.api_id == p_id) = none →
      fetch = some d →
      (∀ f ∈ s.favorites, f.productId < s.nextId) →
      add_favorite s uid p_id fetch =
        (.created (create_product_from_api_data s d).1,
         { s with
             products := s.products ++ [(create_product_from_api_data s d).1],
             favorites := s.favorites ++
               [⟨s.nextId + 1, uid, s.nextId, s.nextId + 1⟩],
             nextId := s.nextId + 2 })) :=
  add_favorite_cases s uid p_id fetch

/-- A product row and a store where user `9` already favorites it. -/
def prodW : Product := ⟨0, 5, "Hat", 3, "A hat", "clothes", "http:h", none, none, 0⟩

/-- Store with `prodW` favorited by user `9`. -/
def sW : Store := ⟨[], [prodW], [⟨1, 9, 0, 1⟩], [], 2⟩

/-- Witness for C5: favoriting an already-favorited product returns the
fixed `400` message and leaves the store unchanged. -/
theorem add_favorite_responses_witness :
    add_favorite sW 9 5 none =
      (.badRequest "The product selected is already on user\x27s favorites.",
       sW) :=
  (add_favorite_responses sW 9 5 none).2.1 prodW (by decide) (by decide)

/-! ### C6 -/

/-- C6: `delete_favorite` — when the current user has no favorite link
whose product carries catalog id `p_id` (whether or not such a product
exists locally), the response is the fixed `400` message and the store
is unchanged; when such a link exists, the first matching row is
deleted and the response is `204` with empty body. -/
theorem delete_favorite_responses (s : Store) (uid : ℕ) (p_id : ℤ) :
    ((∀ f ∈ s.favorites, f.userId = uid →
        ∀ q ∈ s.products, q.pid = f.productId → q.api_id ≠ p_id) →
      delete_favorite s uid p_id =
        (.badRequest "This product is not on your favorites.", s)) ∧
    (∀ f, s.favorites.find? (favFor s uid p_id) = some f →
      delete_favorite s uid p_id =
        (.noContent,
         { s with favorites := s.favorites.eraseP fun g => g.fid == f.fid })) := by
  constructor
  · intro habs
    have hfind : s.favorites.find? (favFor s uid p_id) = none := by
      rw [List.find?_eq_none]
      intro f hf
      simp only [favFor, Bool.and_eq_true, beq_iff_eq, List.any_eq_true,
        not_and]
      intro hu
      rintro ⟨q, hq, hqp, hqa⟩
      exact habs f hf hu q hq hqp hqa
    simp [delete_favorite, hfind]
  · intro f hfind
    simp [delete_favorite, hfind]

/-- Witness for C6: removing a favorite that is not there — the product
with catalog id `5` exists locally (`prodW`) but user `3` has no link
to it — returns the fixed message and leaves the store untouched. -/
theorem delete_favorite_responses_witness :
    delete_favorite sW 3 5 =
      (.badRequest "This product is not on your favorites.", sW) :=
  (delete_favorite_responses sW 3 5).1 (by decide)

/-! ### C9 -/

/-- C9: `delete_user` — a missing id yields the fixed `400` message and
an unchanged store; deleting an existing user removes the user row,
all of the user\x27s tokens and all of the user\x27s favorite links
(and nothing else from those tables), while the product table is left
exactly as it was. -/
theorem delete_user_cascades (s : Store) (user_id : ℕ) :
    (s.users.find? (fun u => u.uid == user_id) = none →
      delete_user s user_id =
        (.badRequest "No user was found with the provided ID.", s)) ∧
    (∀ u, s.users.find? (fun u => u.uid == user_id) = some u →
      (delete_user s user_id).1 = .noContent ∧
      (delete_user s user_id).2.products = s.products ∧
      (∀ v, v ∈ (delete_user s user_id).2.users ↔
        v ∈ s.users ∧ v.uid ≠ user_id) ∧
      (∀ t, t ∈ (delete_user s user_id).2.tokens ↔
        t ∈ s.tokens ∧ t.userId ≠ user_id) ∧
      (∀ f, f ∈ (delete_user s user_id).2.favorites ↔
        f ∈ s.favorites ∧ f.userId ≠ user_id)) := by
  constructor
  · intro hfind
    simp [delete_user, hfind]
  · intro u hfind
    simp [delete_user, hfind, List.mem_filter, bne_iff_ne]

/-- Store with one user holding a token and a favorite, plus a second
user\x27s rows, for the C9 witness. -/
def sDel : Store :=
  ⟨[u0, ⟨2, "Bea", "b@x.com", "pbkdf2$b", .customer⟩],
   [prodW],
   [⟨3, 1, 0, 3⟩, ⟨4, 2, 0, 4⟩],
   [⟨"tok1", 1⟩, ⟨"tok2", 2⟩],
   5⟩

/-- Witness for C9: deleting user `1` from `sDel` succeeds, keeps every
product, drops the user\x27s token and favorite link, and keeps the
other user\x27s rows. -/
theorem delete_user_cascades_witness :
    (delete_user sDel 1).1 = .noContent ∧
    (delete_user sDel 1).2.products = sDel.products ∧
    (⟨"tok1", 1⟩ : AuthToken) ∉ (delete_user sDel 1).2.tokens ∧
    (⟨"tok2", 2⟩ : AuthToken) ∈ (delete_user sDel 1).2.tokens ∧
    (⟨3, 1, 0, 3⟩ : Favorite) ∉ (delete_user sDel 1).2.favorites ∧
    (⟨4, 2, 0, 4⟩ : Favorite) ∈ (delete_user sDel 1).2.favorites ∧
    u0 ∉ (delete_user sDel 1).2.users := by
  have h := (delete_user_cascades sDel 1).2 u0 (by decide)
  refine ⟨h.1, h.2.1, ?_, ?_, ?_, ?_, ?_⟩
  · intro hm
    exact ((h.2.2.2.1 ⟨"tok1", 1⟩).mp hm).2 rfl
  · exact (h.2.2.2.1 ⟨"tok2", 2⟩).mpr ⟨by decide, by decide⟩
  · intro hm
    exact ((h.2.2.2.2 ⟨3, 1, 0, 3⟩).mp hm).2 rfl
  · exact (h.2.2.2.2 ⟨4, 2, 0, 4⟩).mpr ⟨by decide, by decide⟩
  · intro hm
    exact ((h.2.2.1 u0).mp hm).2 rfl

/-! ### C8 -/

/-- C8: partial update — a payload carrying only `name` changes the
name and leaves email, password and role untouched (and touches no
other table); and whenever an update succeeds with a truthy password in
the payload, the stored credential is the hasher\x27s output, so it is
never the plaintext whenever the hasher never returns its input. -/
theorem update_user_partial_fields (hash : String → String) (s : Store)
    (user_id : ℕ) (user : User) (x : String)
    (hfind : s.users.find? (fun u => u.uid == user_id) = some user) :
    (update_user hash s user_id ⟨some x, none, none⟩ =
      (.ok { user with name := x },
       { s with users := s.users.map fun u =>
           if u.uid == user_id then { user with name := x } else u })) ∧
    (∀ payload p u2 s2, payload.password = some p → p ≠ "" →
      update_user hash s user_id payload = (.ok u2, s2) →
      u2.password = hash p ∧ ((∀ q, hash q ≠ q) → u2.password ≠ p)) := by
  constructor
  · simp [update_user, hfind, applyUpdate]
  · intro payload p u2 s2 hp hne hok
    have hpw : u2.password = hash p := by
      simp only [update_user, hfind] at hok
      split at hok
      · exact absurd hok (by simp)
      · cases hok
        rcases payload with ⟨pn, pe, pp⟩
        cases hp
        rcases pn with _ | n <;> rcases pe with _ | e <;>
          simp [applyUpdate, hne]
    exact ⟨hpw, fun hh => by rw [hpw]; exact hh p⟩

/-- Store holding only `u0`, for the update witnesses. -/
def s0 : Store := ⟨[u0], [], [], [], 2⟩

/-- Witness for C8: a name-only payload against `s0` updates the name
and leaves the other fields of `u0` as they were. -/
theorem update_user_partial_fields_witness :
    update_user hashW s0 1 ⟨some "Xena", none, none⟩ =
      (.ok { u0 with name := "Xena" },
       { s0 with users := s0.users.map fun u =>
           if u.uid == 1 then { u0 with name := "Xena" } else u }) :=
  (update_user_partial_fields hashW s0 1 u0 "Xena" (by decide)).1

/-! ### C2 -/

/-- C2 counterexample: user `1` is the only user and holds
`a@x.com`; updating user `1` while re-sending that same email is
rejected with the fixed email-in-use message although no OTHER user
holds the email — the code checks `User.objects.filter(email=...)`
without excluding the user being updated. -/
theorem update_user_own_email_rejected :
    update_user hashW s0 1 ⟨none, some "a@x.com", none⟩ =
      (.badRequest "The provided email is already in use.", s0) ∧
    (∀ u ∈ s0.users, u.email = "a@x.com" → u.uid = 1) := by
  decide

/-- C2 (amended): for an update request carrying an email, a `400`
email-in-use response occurs whenever ANY existing user — the user
being updated included — holds that email, leaving the store
unchanged; the update applies the fields exactly when no user at all
holds it. -/
theorem update_user_email_checked_against_all (hash : String → String)
    (s : Store) (user_id : ℕ) (payload : UserSchemaUpdate) (user : User)
    (e : String)
    (hfind : s.users.find? (fun u => u.uid == user_id) = some user)
    (he : payload.email = some e) :
    ((∃ u ∈ s.users, u.email = e) →
      update_user hash s user_id payload =
        (.badRequest "The provided email is already in use.", s)) ∧
    ((∀ u ∈ s.users, u.email ≠ e) →
      update_user hash s user_id payload =
        (.ok (applyUpdate hash user payload),
         { s with users := s.users.map fun u =>
             if u.uid == user_id then applyUpdate hash user payload else u }) ∧
      (applyUpdate hash user payload).email = e ∧
      (applyUpdate hash user payload).name =
        payload.name.getD user.name ∧
      (applyUpdate hash user payload).role = user.role) := by
  constructor
  · intro hex
    have hany : (s.users.any fun u => u.email == e) = true := by
      rw [List.any_eq_true]
      rcases hex with ⟨u, hu, hue⟩
      exact ⟨u, hu, by simp [hue]⟩
    simp [update_user, hfind, he, hany]
  · intro hall
    have hany : (s.users.any fun u => u.email == e) = false := by
      rw [List.any_eq_false]
      intro u hu
      simp [hall u hu]
    refine ⟨by simp [update_user, hfind, he, hany], ?_, ?_, ?_⟩ <;>
      rcases payload with ⟨pn, pe, pp⟩ <;>
        cases he <;>
          rcases pn with _ | n <;>
            rcases pp with _ | p <;>
              simp [applyUpdate] <;>
                rcases eq_or_ne p "" with hpe | hpe <;>
                  simp [hpe]

/-- Second user for the C2 witness. -/
def uB : User := ⟨2, "Bea", "b@x.com", "pbkdf2$b", .customer⟩

/-- Two-user store for the C2 witness. -/
def s2W : Store := ⟨[u0, uB], [], [], [], 3⟩

/-- Witness for C2 (amended): updating user `1` to the email of user
`2` is rejected with the fixed message. -/
theorem update_user_email_checked_witness :
    update_user hashW s2W 1 ⟨none, some "b@x.com", none⟩ =
      (.badRequest "The provided email is already in use.", s2W) :=
  (update_user_email_checked_against_all hashW s2W 1
      ⟨none, some "b@x.com", none⟩ u0 "b@x.com" (by decide) rfl).1
    ⟨uB, by decide, rfl⟩

/-! ### C3 -/

/-- Product created early (stamp 1). -/
def prodA : Product := ⟨1, 101, "Alpha", 5, "dA", "cA", "http:a", none, none, 1⟩

/-- Product created later (stamp 2). -/
def prodB : Product := ⟨2, 102, "Beta", 6, "dB", "cB", "http:b", none, none, 2⟩

/-- Store where user `1` favorited `prodB` first (link stamp 3) and
`prodA` second (link stamp 4). -/
def s3 : Store :=
  ⟨[u0], [prodA, prodB], [⟨3, 1, 2, 3⟩, ⟨4, 1, 1, 4⟩], [], 5⟩

/-- C3 counterexample: in `s3` the user favorited `prodB` before
`prodA` (the link stamps say so), yet the endpoint lists `prodA`
first — the queryset is ordered by the PRODUCT\x27s `date_created`,
not by the favorite link\x27s. -/
theorem get_favorites_order_counterexample :
    get_favorites s3 1 = [prodA, prodB] ∧
    get_favorites s3 1 ≠ [prodB, prodA] ∧
    (∃ f ∈ s3.favorites, f.productId = prodB.pid ∧
      ∃ g ∈ s3.favorites, g.productId = prodA.pid ∧
        f.date_created < g.date_created) := by
  decide

/-- C3 (amended): the list endpoint returns exactly the current
user\x27s favorited products, ordered by the product rows\x27 own
creation stamps (`Product.date_created`) rather than by the creation
time of the favorite links. -/
theorem get_favorites_members_sorted (s : Store) (uid : ℕ) :
    (∀ p, p ∈ get_favorites s uid ↔
      p ∈ s.products ∧ ∃ f ∈ s.favorites,
        f.userId = uid ∧ f.productId = p.pid) ∧
    (get_favorites s uid).Sorted byDateCreated := by
  constructor
  · intro p
    rw [get_favorites, List.mem_insertionSort, List.mem_filter]
    simp [favoriteExists, List.any_eq_true]
  · exact List.sorted_insertionSort byDateCreated _

/-- Witness for C3 (amended) on the concrete store `s3`. -/
theorem get_favorites_members_sorted_witness :
    (prodA ∈ get_favorites s3 1 ∧ prodB ∈ get_favorites s3 1) ∧
    (get_favorites s3 1).Sorted byDateCreated :=
  ⟨⟨((get_favorites_members_sorted s3 1).1 prodA).mpr
      ⟨by decide, ⟨4, 1, 1, 4⟩, by decide, rfl, rfl⟩,
    ((get_favorites_members_sorted s3 1).1 prodB).mpr
      ⟨by decide, ⟨3, 1, 2, 3⟩, by decide, rfl, rfl⟩⟩,
   (get_favorites_members_sorted s3 1).2⟩

/-! ### C7 -/

/-- C7: the favorites page envelope uses a fixed page size of 20 and a
1-indexed page parameter — with 25 favorites, page 1 carries 20 items,
page 2 carries 5, every later page carries 0, and the reported count is
25 on every page. -/
theorem get_favorites_pagination_25 (s : Store) (uid : ℕ)
    (h : (get_favorites s uid).length = 25) :
    (get_favorites_page s uid 1).1.length = 20 ∧
    (get_favorites_page s uid 2).1.length = 5 ∧
    (∀ page, 3 ≤ page → (get_favorites_page s uid page).1.length = 0) ∧
    (∀ page, (get_favorites_page s uid page).2 = 25) := by
  refine ⟨?_, ?_, ?_, ?_⟩
  · simp [get_favorites_page, paginate20, List.length_take,
      List.length_drop, h]
  · simp [get_favorites_page, paginate20, List.length_take,
      List.length_drop, h]
  · intro page hp
    simp only [get_favorites_page, paginate20, List.length_take,
      List.length_drop, h]
    have h20 : 40 ≤ (page - 1) * 20 := by omega
    omega
  · intro page
    simp [get_favorites_page, paginate20, h]

/-- One of 25 favorited products, catalog ids `200+i`, row key and
creation stamp `i`. -/
def mkP (i : ℕ) : Product :=
  ⟨i, Int.ofNat (200 + i), "P", 1, "d", "c", "http:p", none, none, i⟩

/-- Store where user `1` has favorited 25 products. -/
def bigStore : Store :=
  ⟨[u0], (List.range 25).map mkP,
   (List.range 25).map (fun i => ⟨100 + i, 1, i, 100 + i⟩), [], 200⟩

/-- Witness for C7 on the 25-favorite store. -/
theorem get_favorites_pagination_25_witness :
    (get_favorites_page bigStore 1 1).1.length = 20 ∧
    (get_favorites_page bigStore 1 2).1.length = 5 ∧
    (get_favorites_page bigStore 1 3).1.length = 0 ∧
    (get_favorites_page bigStore 1 3).2 = 25 := by
  have h := get_favorites_pagination_25 bigStore 1 (by decide)
  exact ⟨h.1, h.2.1, h.2.2.1 3 (by decide), h.2.2.2 3⟩

/-! ### C1 -/

/-- A sync loop iteration never changes the number of product rows. -/
theorem syncItem_length (ps : List Product) (d : ApiProductData)
    (ps2 : List Product) (b : Bool) (h : syncItem ps d = some (ps2, b)) :
    ps2.length = ps.length := by
  unfold syncItem at h
  split at h
  · simp only [Option.some.injEq, Prod.mk.injEq] at h
    rw [← h.1]
  · split at h
    · split at h
      · exact absurd h (by simp)
      · simp only [Option.some.injEq, Prod.mk.injEq] at h
        rw [← h.1, List.length_map]
    · simp only [Option.some.injEq, Prod.mk.injEq] at h
      rw [← h.1]

/-- A whole sync run never creates or deletes product rows. -/
theorem syncRun_length (items : List ApiProductData) :
    ∀ ps ps2 u k, syncRun ps items = some (ps2, u, k) →
      ps2.length = ps.length := by
  induction items with
  | nil =>
    intro ps ps2 u k h
    simp only [syncRun, Option.some.injEq, Prod.mk.injEq] at h
    rw [← h.1]
  | cons d ds ih =>
    intro ps ps2 u k h
    rcases h1 : syncItem ps d with _ | ⟨ps1, b⟩
    · simp [syncRun, h1] at h
    · rcases h2 : syncRun ps1 ds with _ | ⟨ps5, u5, k5⟩
      · simp [syncRun, h1, h2] at h
      · simp only [syncRun, h1, h2, Option.some.injEq, Prod.mk.injEq] at h
        rw [← h.1, ih ps1 ps5 u5 k5 h2, syncItem_length ps d ps1 b h1]

/-- Local product whose rating columns disagree with the catalog while
the five compared fields agree. -/
def syncLocalP : Product :=
  ⟨0, 1, "Tee", 1, "d", "c", "http:i", some 3, some 10, 0⟩

/-- Catalog item matching `syncLocalP` on the five compared fields but
carrying a different rating. -/
def syncFetchedD : ApiProductData :=
  ⟨1, "Tee", 1, "d", "c", "http:i", some ⟨some 5, some 99⟩⟩

/-- C1 counterexample: the local product\x27s rating fields differ from
the fetched item\x27s (`3` vs `5`), yet the run counts the item as
skipped (`0` updated, `1` skipped) and leaves the row unchanged — the
`has_changes` test compares only title, price, description, category
and image. -/
theorem sync_rating_only_change_skipped :
    syncRun [syncLocalP] [syncFetchedD] = some ([syncLocalP], 0, 1) ∧
    syncLocalP.api_id = syncFetchedD.id ∧
    syncLocalP.rating_rate = some 3 ∧
    syncFetchedD.rating = some ⟨some 5, some 99⟩ ∧
    (3 : ℚ) ≠ 5 := by
  decide

/-- C1 (amended): for every fetched catalog item — an item with no
local row is skipped and the product table is never touched; an item
whose local row agrees on title, price, description, category and
image is skipped (even when the rating columns differ); an item whose
local row differs on one of those five fields is counted updated and
its row is overwritten with the five fetched values, the rating
columns being overwritten too exactly when the payload carries a
rating object; and no run ever changes the number of product rows. -/
theorem sync_updates_on_core_fields (ps : List Product)
    (d : ApiProductData) :
    (ps.find? (fun p => p.api_id == d.id) = none →
      syncItem ps d = some (ps, false)) ∧
    (∀ p, ps.find? (fun p => p.api_id == d.id) = some p →
      ((p.title = d.title ∧ p.price = d.price ∧
        p.description = d.description ∧ p.category = d.category ∧
        p.image = d.image) →
        syncItem ps d = some (ps, false)) ∧
      (¬ (p.title = d.title ∧ p.price = d.price ∧
          p.description = d.description ∧ p.category = d.category ∧
          p.image = d.image) →
        (d.rating = none →
          syncItem ps d = some (ps.map (fun q => if q.pid == p.pid then
            { p with title := d.title, price := d.price,
                     description := d.description,
                     category := d.category, image := d.image }
            else q), true)) ∧
        (∀ r rate cnt, d.rating = some r → r.rate = some rate →
          r.count = some cnt →
          syncItem ps d = some (ps.map (fun q => if q.pid == p.pid then
            { p with title := d.title, price := d.price,
                     description := d.description,
                     category := d.category, image := d.image,
                     rating_rate := some rate, rating_count := some cnt }
            else q), true)))) ∧
    (∀ items ps2 u k, syncRun ps items = some (ps2, u, k) →
      ps2.length = ps.length) := by
  refine ⟨?_, ?_, fun items ps2 u k h => syncRun_length items ps ps2 u k h⟩
  · intro hfind
    simp [syncItem, hfind]
  · intro p hfind
    refine ⟨?_, ?_⟩
    · rintro ⟨h1, h2, h3, h4, h5⟩
      have hc : syncHasChanges p d = false := by
        simp [syncHasChanges, h1, h2, h3, h4, h5]
      simp [syncItem, hfind, hc]
    · intro hdiff
      have hc : syncHasChanges p d = true := by
        simp only [syncHasChanges, decide_eq_true_eq]
        exact hdiff
      constructor
      · intro hrat
        simp [syncItem, hfind, hc, syncOverwrite, hrat]
      · intro r rate cnt hrat hrate hcnt
        simp [syncItem, hfind, hc, syncOverwrite, hrat, hrate, hcnt]

/-- Local product whose title disagrees with the catalog. -/
def syncLocalQ : Product :=
  ⟨0, 1, "Old", 1, "d", "c", "http:i", none, none, 0⟩

/-- Catalog item renaming `syncLocalQ` and carrying a full rating. -/
def syncFetchedE : ApiProductData :=
  ⟨1, "New", 1, "d", "c", "http:i", some ⟨some 4, some 7⟩⟩

/-- Witness for C1 (amended): a title change is applied together with
the fetched rating and counted as updated. -/
theorem sync_updates_witness :
    syncItem [syncLocalQ] syncFetchedE =
      some ([syncLocalQ].map (fun q =>
        if q.pid == syncLocalQ.pid then
          { syncLocalQ with title := "New", price := 1, description := "d",
                            category := "c", image := "http:i",
                            rating_rate := some 4, rating_count := some 7 }
        else q), true) :=
  (((sync_updates_on_core_fields [syncLocalQ] syncFetchedE).2.1 syncLocalQ
      (by decide)).2 (by decide)).2 ⟨some 4, some 7⟩ 4 7 rfl rfl rfl

/-! ### C4 -/

/-- `find?` over a list extended on the right finds the new element
when nothing in the prefix matches. -/
theorem find?_append_singleton {α : Type} (l : List α) (x : α)
    (q : α → Bool) (hl : ∀ y ∈ l, q y = false) (hx : q x = true) :
    (l ++ [x]).find? q = some x := by
  induction l with
  | nil => simp [List.find?, hx]
  | cons y ys ih =>
    have hy : q y = false := hl y (by simp)
    rw [List.cons_append, List.find?_cons, hy]
    exact ih fun z hz => hl z (by simp [hz])

/-- C4: starting from a store with no local product for catalog id `p`,
two favorite-add calls for `p` by two different users (both with a
successful fetch of the item `d` for `p`) leave exactly one product row
carrying `api_id = p` and exactly two favorite links to it, one per
user. -/
theorem favorite_unknown_twice (s : Store) (a b : ℕ) (p : ℤ)
    (d : ApiProductData)
    (hnone : ∀ q ∈ s.products, q.api_id ≠ p)
    (hwf : ∀ f ∈ s.favorites, f.productId < s.nextId)
    (hid : d.id = p) (hab : a ≠ b) :
    ∃ q,
      ((add_favorite (add_favorite s a p (some d)).2 b p
          (some d)).2.products.filter fun x => x.api_id == p) = [q] ∧
      ∃ f g,
        ((add_favorite (add_favorite s a p (some d)).2 b p
            (some d)).2.favorites.filter fun h => h.productId == q.pid) =
          [f, g] ∧ f.userId = a ∧ g.userId = b := by
  have hfind1 : s.products.find? (fun q => q.api_id == p) = none := by
    rw [List.find?_eq_none]
    intro q hq
    simpa using hnone q hq
  have h1 := (add_favorite_cases s a p (some d)).2.2.2 d hfind1 rfl hwf
  have hfind2 : ((s.products ++
      [(create_product_from_api_data s d).1]).find?
        fun q => q.api_id == p) =
      some (create_product_from_api_data s d).1 := by
    refine find?_append_singleton _ _ _ ?_ ?_
    · intro y hy
      simpa using hnone y hy
    · simp [create_product_from_api_data, hid]
  have hany2 : (((s.favorites ++
      ([⟨s.nextId + 1, a, s.nextId, s.nextId + 1⟩] : List Favorite)).any
        fun f => f.userId == b && f.productId == s.nextId)) = false := by
    rw [List.any_eq_false]
    intro f hf
    rcases List.mem_append.mp hf with hf | hf
    · have := hwf f hf
      simp only [Bool.and_eq_true, beq_iff_eq, not_and]
      intro _ hpe
      omega
    · simp only [List.mem_singleton] at hf
      subst hf
      simp only [Bool.and_eq_true, beq_iff_eq, not_and]
      intro hba _
      exact hab hba
  have h2 := (add_favorite_cases
      { s with
          products := s.products ++ [(create_product_from_api_data s d).1],
          favorites := s.favorites ++
            ([⟨s.nextId + 1, a, s.nextId, s.nextId + 1⟩] : List Favorite),
          nextId := s.nextId + 2 }
      b p (some d)).2.2.1 (create_product_from_api_data s d).1 hfind2 hany2
  have hfilp : (s.products.filter fun x => x.api_id == p) = [] := by
    rw [List.filter_eq_nil_iff]
    intro q hq
    simpa using hnone q hq
  have hfilf : (s.favorites.filter fun h => h.productId == s.nextId) = [] := by
    rw [List.filter_eq_nil_iff]
    intro f hf
    have := hwf f hf
    simp only [beq_iff_eq]
    omega
  rw [h1]
  dsimp only
  rw [h2]
  dsimp only [create_product_from_api_data]
  refine ⟨⟨s.nextId, d.id, d.title, d.price, d.description, d.category,
      d.image, ratingRateFromData d, ratingCountFromData d, s.nextId⟩, ?_,
    ⟨s.nextId + 1, a, s.nextId, s.nextId + 1⟩,
    ⟨s.nextId + 2, b, s.nextId, s.nextId + 2⟩, ?_, rfl, rfl⟩
  · rw [List.filter_append, hfilp]
    simp [hid]
  · dsimp only
    rw [List.filter_append, List.filter_append, hfilf]
    simp

/-- Witness for C4: from the empty store, users `1` and `2` both
favorite the unknown catalog id `7`. -/
theorem favorite_unknown_twice_witness :
    ∃ q,
      ((add_favorite (add_favorite emptyStore 1 7 (some dZero)).2 2 7
          (some dZero)).2.products.filter fun x => x.api_id == 7) = [q] ∧
      ∃ f g,
        ((add_favorite (add_favorite emptyStore 1 7 (some dZero)).2 2 7
            (some dZero)).2.favorites.filter
          fun h => h.productId == q.pid) = [f, g] ∧
        f.userId = 1 ∧ g.userId = 2 :=
  favorite_unknown_twice emptyStore 1 2 7 dZero (by decide) (by decide)
    rfl (by decide)

end FavApi
